import Mathlib

/-!
Shallow embedding of the Todo Store Service in `src/app.py` (Flask + SQLite).

Modelling conventions:
* JSON values parsed by `request.get_json()` are `JValue`; an unparseable or
  absent body is modelled as `none : Option JValue` (the handler sees `data`
  that is falsy, matching `if not data`).
* The SQLite database is `DB`: the `todos` table is `Option (List Row)`
  (`none` = table absent), rows kept in rowid (insertion) order.  `seq`
  models the AUTOINCREMENT sequence: the largest id ever assigned, so a new
  row gets id `seq + 1`, strictly greater than every id ever used.  `clock`
  is the wall clock at second resolution, as read by `CURRENT_TIMESTAMP`:
  an insert stamps the clock's current value and does not advance it, so
  back-to-back inserts within the same second share a timestamp; the clock
  advances only when the environment ticks to the next second (`tickClock`).
* A raised Python/SQLite exception is `Except.error e`: it leaves the
  database unchanged (the failing `execute` happens before any commit) and
  Flask turns it into a generic 500 server failure, distinct from the
  handler's own 400 response.
* The per-request application context `g` is `Ctx`; `conn = true` means
  `g._database` holds an open connection.
-/

namespace TodoApp

/-- JSON values as produced by `request.get_json()`. Objects are association
lists with distinct keys (the JSON parser deduplicates keys). -/
inductive JValue where
  | null : JValue
  | str (s : String) : JValue
  | num (n : Int) : JValue
  | jbool (b : Bool) : JValue
  | obj (fields : List (String × JValue)) : JValue
  | arr (elems : List JValue) : JValue

/-- Python truthiness of the parsed value, as tested by `if not data`
(`None` is handled separately as `Option.none`). -/
def JValue.truthy : JValue → Bool
  | .null => false
  | .str s => !(s == "")
  | .num n => !(n == 0)
  | .jbool b => b
  | .obj fs => !fs.isEmpty
  | .arr xs => !xs.isEmpty

/-- SQLite storage classes relevant to the `text` column. -/
inductive SqlValue where
  | sNull : SqlValue
  | sText (s : String) : SqlValue
  | sInt (n : Int) : SqlValue
deriving DecidableEq, Repr

/-- How `sqlite3` binds a Python value as an SQL parameter: `str`, `int` and
`bool` are supported, `None` binds as NULL, and a `dict` or `list` is an
unsupported type (raises `InterfaceError`, modelled as `none`). -/
def bindValue : JValue → Option SqlValue
  | .null => some .sNull
  | .str s => some (.sText s)
  | .num n => some (.sInt n)
  | .jbool b => some (.sInt (if b then 1 else 0))
  | .obj _ => none
  | .arr _ => none

/-- One row of the `todos` table:
`id INTEGER PRIMARY KEY AUTOINCREMENT, text TEXT NOT NULL,
created_at TIMESTAMP DEFAULT CURRENT_TIMESTAMP`. -/
structure Row where
  id : Nat
  text : SqlValue
  created_at : Nat
deriving DecidableEq, Repr

/-- The SQLite database state.  `table = none` means the `todos` table does
not exist yet; rows are listed in rowid (insertion) order.  `seq` is the
AUTOINCREMENT sequence (largest id ever assigned); `clock` the current
wall-clock second, read by `CURRENT_TIMESTAMP` and advanced only by the
environment, never by an insert. -/
structure DB where
  table : Option (List Row)
  seq : Nat
  clock : Nat
deriving DecidableEq, Repr

/-- A database with no `todos` table yet and nothing ever inserted. -/
def emptyDB : DB := { table := none, seq := 0, clock := 0 }

/-- Exceptions that the embedded code can raise; any of them propagates out
of the handler as a generic 500 server failure. -/
inductive DbError where
  | integrityError : DbError
  | interfaceError : DbError
  | operationalError : DbError
  | typeError : DbError
deriving DecidableEq, Repr

/-- An HTTP response: status code and JSON body. -/
structure Response where
  status : Nat
  body : JValue

/-- Character-list version of Python's substring test. -/
def charsPre : List Char → List Char → Bool
  | [], _ => true
  | _ :: _, [] => false
  | a :: as, b :: bs => a == b && charsPre as bs

/-- Test whether `needle` occurs as a contiguous run inside `hay`. -/
def charsSub (needle : List Char) : List Char → Bool
  | [] => needle.isEmpty
  | c :: cs => charsPre needle (c :: cs) || charsSub needle cs

/-- Python's `k in v` on a parsed JSON value: key membership for a dict,
element membership for a list, substring for a string; `in` on a number,
boolean or `None` raises `TypeError`. -/
def jsonContains (v : JValue) (k : String) : Except DbError Bool :=
  match v with
  | .obj fs => .ok (fs.any (fun p => p.1 == k))
  | .arr xs => .ok (xs.any (fun x => match x with | .str s => s == k | _ => false))
  | .str s => .ok (charsSub k.toList s.toList)
  | _ => .error .typeError

/-- Python's `v[k]` with a string key: dict lookup for a dict (keys are
distinct after parsing, so first match is the dict entry); indexing a list
or string with a string key raises `TypeError`. -/
def jsonIndex (v : JValue) (k : String) : Except DbError JValue :=
  match v with
  | .obj fs =>
      match fs.find? (fun p => p.1 == k) with
      | some p => .ok p.2
      | none => .error .typeError
  | _ => .error .typeError

/-- Embedding of `init_db` (src/app.py lines 31-43): `CREATE TABLE IF NOT EXISTS todos
(...)` then commit — creates the empty table only when absent, otherwise a
no-op; never touches rows, the sequence or the clock. -/
def init_db (db : DB) : DB :=
  match db.table with
  | none => { db with table := some [] }
  | some _ => db

/-- Embedding of `db.execute("INSERT INTO todos (text) VALUES (?)", (v,))` followed by
commit.  Binding can fail (`InterfaceError`), the table may be absent
(`OperationalError`), and a NULL text violates `text TEXT NOT NULL`
(`IntegrityError`); on any failure nothing is written.  On success the new
row gets id `seq + 1` (AUTOINCREMENT) and `created_at = clock`: the row is
stamped with the wall clock's current value (`CURRENT_TIMESTAMP` has second
resolution), and inserting does not advance the clock — two inserts in the
same second get equal timestamps. -/
def dbInsert (db : DB) (v : JValue) : Except DbError Unit × DB :=
  match bindValue v with
  | none => (.error .interfaceError, db)
  | some sv =>
    match db.table with
    | none => (.error .operationalError, db)
    | some rows =>
      if sv = SqlValue.sNull then (.error .integrityError, db)
      else (.ok (),
        { table := some (rows ++ [{ id := db.seq + 1, text := sv, created_at := db.clock }]),
          seq := db.seq + 1,
          clock := db.clock })

/-- Stable insertion of a row into a list sorted by `created_at`
descending: `r` (which precedes the list in scan order) goes before every
element whose timestamp is not larger, so tied rows keep scan order. -/
def insertDesc (r : Row) : List Row → List Row
  | [] => [r]
  | x :: xs =>
      if x.created_at ≤ r.created_at then r :: x :: xs
      else x :: insertDesc r xs

/-- Embedding of `ORDER BY created_at DESC`: sort the rows by creation timestamp, most
recent first.  SQL itself leaves the relative order of equal-timestamp rows
unspecified; SQLite feeds the sorter from a full table scan and returns
tied rows in scan (rowid, i.e. insertion) order, which this stable
insertion sort reproduces. -/
def sortByCreatedDesc : List Row → List Row
  | [] => []
  | r :: rs => insertDesc r (sortByCreatedDesc rs)

/-- Embedding of `dict(row)` serialised by `jsonify`: the JSON object for one row. -/
def rowToJson (r : Row) : JValue :=
  .obj [("id", .num (r.id : Int)),
        ("text", match r.text with
                 | .sNull => JValue.null
                 | .sText s => JValue.str s
                 | .sInt n => JValue.num n),
        ("created_at", .num (r.created_at : Int))]

/-- The fixed 400 validation response of the POST branch. -/
def missingTextResponse : Response :=
  { status := 400,
    body := .obj [("error", .str "Missing \"text\" field in JSON payload.")] }

/-- Embedding of `handle_todos`, GET branch (src/app.py lines 65-72): select all rows
ordered by `created_at` descending and return them as a JSON array with
status 200; fails only if the table is absent. -/
def handle_todos_get (db : DB) : Except DbError Response × DB :=
  match db.table with
  | none => (.error .operationalError, db)
  | some rows =>
      (.ok { status := 200, body := .arr ((sortByCreatedDesc rows).map rowToJson) }, db)

/-- Embedding of `handle_todos`, POST branch (src/app.py lines 74-89).  `data` is the
result of `request.get_json()` (`none` when the body is absent or not
JSON).  `if not data or 'text' not in data` returns the fixed 400 response;
otherwise `data['text']` is inserted and echoed in a 201 response.  A raised
exception (`.error`) leaves the database unchanged. -/
def handle_todos_post (db : DB) (data : Option JValue) : Except DbError Response × DB :=
  match data with
  | none => (.ok missingTextResponse, db)
  | some v =>
    if v.truthy = false then (.ok missingTextResponse, db)
    else
      match jsonContains v "text" with
      | .error e => (.error e, db)
      | .ok false => (.ok missingTextResponse, db)
      | .ok true =>
        match jsonIndex v "text" with
        | .error e => (.error e, db)
        | .ok tv =>
          match dbInsert db tv with
          | (.error e, db2) => (.error e, db2)
          | (.ok _, db2) =>
              (.ok { status := 201,
                     body := .obj [("status", .str "success"),
                                   ("message", .str "To-Do item added successfully."),
                                   ("text", tv)] }, db2)

/-- Embedding of `get_message` (src/app.py lines 52-59): the status-check endpoint; it
never calls `get_db` and returns a fixed JSON payload with status 200. -/
def get_message (db : DB) : Response × DB :=
  ({ status := 200,
     body := .obj [("status", .str "success"),
                   ("message", .str "Initial connection check successful. Database initialized.")] },
   db)

/-- The per-request application context `g`: whether `g._database` holds an
open connection. -/
structure Ctx where
  conn : Bool
deriving DecidableEq, Repr

/-- A fresh application context at the start of a request: no connection. -/
def freshCtx : Ctx := { conn := false }

/-- Embedding of `get_db` (src/app.py lines 14-21): open a connection if there is none
yet for the current application context; afterwards one is open. -/
def get_db (c : Ctx) : Ctx :=
  if c.conn then c else { conn := true }

/-- Embedding of `close_connection` (src/app.py lines 24-29), the `teardown_appcontext`
callback: close the connection if one was opened, otherwise do nothing. -/
def close_connection (c : Ctx) : Ctx :=
  if c.conn then { conn := false } else c

/-- The three requests the service accepts. -/
inductive Request where
  | listTodos : Request
  | createTodo (data : Option JValue) : Request
  | statusCheck : Request

/-- Route dispatch: `handle_todos` calls `get_db` before branching on the
method; `get_message` never touches the database. -/
def dispatch (db : DB) (c : Ctx) : Request → (Except DbError Response × DB) × Ctx
  | .statusCheck =>
      let (resp, db2) := get_message db
      ((.ok resp, db2), c)
  | .listTodos => (handle_todos_get db, get_db c)
  | .createTodo d => (handle_todos_post db d, get_db c)

/-- One full request cycle: Flask pushes a fresh application context, runs
the matched handler, and runs every `teardown_appcontext` callback
(here `close_connection`) when the context is popped — on normal return and
on a raised exception alike. -/
def processRequest (db : DB) (r : Request) : (Except DbError Response × DB) × Ctx :=
  let (out, c) := dispatch db freshCtx r
  (out, close_connection c)

/-- Database evolution under one request (responses discarded). -/
def stepDb (db : DB) (r : Request) : DB := (processRequest db r).1.2

/-- The wall clock ticking to the next second: an environment event between
requests, touching no stored data. -/
def tickClock (db : DB) : DB := { db with clock := db.clock + 1 }

/-- Database states reachable by serving requests after startup
(`with app.app_context(): init_db()`), with the wall clock free to advance
between requests. -/
inductive Reachable : DB → Prop where
  | start : Reachable (init_db emptyDB)
  | step (r : Request) {db : DB} : Reachable db → Reachable (stepDb db r)
  | tick {db : DB} : Reachable db → Reachable (tickClock db)

/-- Run one Create per text, in order, back to back within one wall-clock
second (no tick between calls, so all rows share a timestamp); each request
body is the well-formed object with the single key "text". -/
def createTexts (db : DB) : List String → DB
  | [] => db
  | t :: ts => createTexts (handle_todos_post db (some (JValue.obj [("text", JValue.str t)]))).2 ts

/-- The responses of the same back-to-back sequence of Create calls, in
call order. -/
def createTextsResponses (db : DB) : List String → List (Except DbError Response)
  | [] => []
  | t :: ts =>
      let r := handle_todos_post db (some (JValue.obj [("text", JValue.str t)]))
      r.1 :: createTextsResponses r.2 ts

/-- Run one Create per text, in order, with the wall clock ticking to the
next second after each call — so consecutive rows get strictly increasing
timestamps (the calls fall in distinct seconds). -/
def createTextsSpaced (db : DB) : List String → DB
  | [] => db
  | t :: ts =>
      createTextsSpaced
        (tickClock (handle_todos_post db (some (JValue.obj [("text", JValue.str t)]))).2) ts

/-- The responses of the same clock-spaced sequence of Create calls, in
call order. -/
def createTextsSpacedResponses (db : DB) : List String → List (Except DbError Response)
  | [] => []
  | t :: ts =>
      (handle_todos_post db (some (JValue.obj [("text", JValue.str t)]))).1
        :: createTextsSpacedResponses
             (tickClock (handle_todos_post db (some (JValue.obj [("text", JValue.str t)]))).2) ts

/-- The rows produced by inserting the given texts starting from sequence
value `s` and clock `c`: ids `s+1, s+2, …`, timestamps `c, c+1, …`. -/
def rowsFrom (s c : Nat) : List String → List Row
  | [] => []
  | t :: ts => { id := s + 1, text := .sText t, created_at := c } :: rowsFrom (s + 1) (c + 1) ts

/-- Well-formedness of a database state: the `todos` table exists, its ids
are strictly increasing in insertion order, and no id exceeds the
AUTOINCREMENT sequence value (so ids are never reused). -/
def dbWF (db : DB) : Prop :=
  ∃ rows, db.table = some rows
    ∧ List.Chain' (fun a b : Row => a.id < b.id) rows
    ∧ (∀ x ∈ rows, x.id ≤ db.seq)

/-- A sample reachable state: the initialized database after one successful
Create. -/
def sampleDB : DB :=
  stepDb (init_db emptyDB) (Request.createTodo (some (.obj [("text", JValue.str "a")])))

/-- C10: The status-check endpoint returns the fixed success payload
`{status: "success", message: <fixed string>}` with status 200 for every
database state, and leaves the state untouched (it reads and writes no
stored state: the response is a constant, and the returned state is the
input state). -/
theorem status_check_constant (db : DB) :
    get_message db =
      ({ status := 200,
         body := .obj [("status", .str "success"),
                       ("message", .str "Initial connection check successful. Database initialized.")] },
       db) := rfl

/-- C4: When the Create payload is not well-formed JSON, `request.get_json()`
yields no parsed value (modelled as `none`), the `if not data` check fires,
and the caller receives the 400 validation error response; the database is
unchanged — no row is written. -/
theorem unparseable_json_rejected (db : DB) :
    handle_todos_post db none =
      (.ok { status := 400,
             body := .obj [("error", .str "Missing \"text\" field in JSON payload.")] },
       db) := rfl

/-- C3: A Create whose payload is a JSON object without the key "text"
(the empty object included) gets status 400 with error message exactly
`Missing "text" field in JSON payload.`, and the database is unchanged. -/
theorem missing_text_rejected (db : DB) (fs : List (String × JValue))
    (hno : fs.any (fun p => p.1 == "text") = false) :
    handle_todos_post db (some (.obj fs)) =
      (.ok { status := 400,
             body := .obj [("error", .str "Missing \"text\" field in JSON payload.")] },
       db) := by
  cases fs with
  | nil => rfl
  | cons p ps =>
      simp [handle_todos_post, JValue.truthy, jsonContains, hno, missingTextResponse]

/-- Witness for C3: the concrete payload `{"done": true}` has no "text" key
and is rejected with the exact 400 response, leaving the fresh database
unchanged. -/
theorem missing_text_rejected_witness :
    ([(("done", JValue.jbool true))].any (fun p => p.1 == "text") = false)
    ∧ handle_todos_post (init_db emptyDB) (some (.obj [("done", JValue.jbool true)])) =
        (.ok { status := 400,
               body := .obj [("error", .str "Missing \"text\" field in JSON payload.")] },
         init_db emptyDB) :=
  ⟨by decide, missing_text_rejected (init_db emptyDB) [("done", JValue.jbool true)] (by decide)⟩

/-- C5: A Create with payload `{"text": ""}` passes the presence check (the
one-field object is truthy and contains the key), so the empty string is
stored as-is and echoed in the 201 response: presence, not non-emptiness,
is validated. -/
theorem empty_text_accepted (db : DB) (rows : List Row) (ht : db.table = some rows) :
    handle_todos_post db (some (.obj [("text", .str "")])) =
      (.ok { status := 201,
             body := .obj [("status", .str "success"),
                           ("message", .str "To-Do item added successfully."),
                           ("text", .str "")] },
       { table := some (rows ++ [{ id := db.seq + 1, text := .sText "", created_at := db.clock }]),
         seq := db.seq + 1, clock := db.clock }) := by
  simp [handle_todos_post, JValue.truthy, jsonContains, jsonIndex, dbInsert, bindValue, ht]

/-- Witness for C5: the empty-text Create on the freshly initialized
database stores the row and echoes the empty string. -/
theorem empty_text_accepted_witness :
    (init_db emptyDB).table = some []
    ∧ handle_todos_post (init_db emptyDB) (some (.obj [("text", .str "")])) =
        (.ok { status := 201,
               body := .obj [("status", .str "success"),
                             ("message", .str "To-Do item added successfully."),
                             ("text", .str "")] },
         { table := some [{ id := 1, text := .sText "", created_at := 0 }],
           seq := 1, clock := 0 }) :=
  ⟨rfl, empty_text_accepted (init_db emptyDB) [] rfl⟩

/-- C7: Initialize is idempotent: running `init_db` twice gives the same
state as running it once (`CREATE TABLE IF NOT EXISTS`), and when the table
already exists `init_db` keeps its rows exactly — nothing duplicated or
dropped. -/
theorem init_db_idempotent (db : DB) :
    init_db (init_db db) = init_db db
    ∧ (∀ rows, db.table = some rows → (init_db db).table = some rows) := by
  refine ⟨?_, ?_⟩
  · cases h : db.table <;> simp [init_db, h]
  · intro rows hr
    simp [init_db, hr]

/-- Witness for C7: on a database already holding one row, a second
`init_db` is a no-op and the row is preserved. -/
theorem init_db_idempotent_witness :
    init_db (init_db { table := some [{ id := 1, text := .sText "a", created_at := 0 }],
                       seq := 1, clock := 1 })
      = init_db { table := some [{ id := 1, text := .sText "a", created_at := 0 }],
                  seq := 1, clock := 1 }
    ∧ (init_db { table := some [{ id := 1, text := .sText "a", created_at := 0 }],
                 seq := 1, clock := 1 }).table
        = some [{ id := 1, text := .sText "a", created_at := 0 }] :=
  ⟨(init_db_idempotent _).1,
   (init_db_idempotent { table := some [{ id := 1, text := .sText "a", created_at := 0 }],
                         seq := 1, clock := 1 }).2 _ rfl⟩

/-- C8: After any request — List, Create (any payload, succeeding or
raising) or Status check — the teardown callback has run and the
application context holds no open connection: the per-request connection is
released on every exit path. -/
theorem connection_released (db : DB) (r : Request) :
    ((processRequest db r).2).conn = false := by
  cases r <;>
    simp [processRequest, dispatch, close_connection, get_db, freshCtx, get_message]

/-- Counterexample for C2 as stated: the payload `{"text": null}` is a
well-formed JSON object containing the key "text", yet the Create does not
return 201 and persists nothing — the insert raises `IntegrityError`
(NOT NULL violation) and the database is unchanged. -/
theorem create_null_text_counterexample :
    handle_todos_post (init_db emptyDB) (some (.obj [("text", JValue.null)]))
      = (.error .integrityError, init_db emptyDB) := rfl

/-- C2 (amended): For a Create whose payload is a well-formed JSON object
in which "text" maps to a bindable non-null value (string, number or
boolean), the operation appends exactly one row with the next id
(`seq + 1`) and the current timestamp, advances the sequence, and returns
201 echoing the text value. -/
theorem create_with_text_ok (db : DB) (rows : List Row) (fs : List (String × JValue))
    (v : JValue) (sv : SqlValue)
    (ht : db.table = some rows)
    (hfind : fs.find? (fun p => p.1 == "text") = some ("text", v))
    (hbind : bindValue v = some sv)
    (hnn : sv ≠ SqlValue.sNull) :
    handle_todos_post db (some (.obj fs)) =
      (.ok { status := 201,
             body := .obj [("status", .str "success"),
                           ("message", .str "To-Do item added successfully."),
                           ("text", v)] },
       { table := some (rows ++ [{ id := db.seq + 1, text := sv, created_at := db.clock }]),
         seq := db.seq + 1, clock := db.clock }) := by
  cases fs with
  | nil => simp at hfind
  | cons p ps =>
      have hmem : (("text", v) : String × JValue) ∈ p :: ps :=
        List.mem_of_find?_eq_some hfind
      have hany : ((p :: ps).any (fun q => q.1 == "text")) = true :=
        List.any_eq_true.2 ⟨("text", v), hmem, by simp⟩
      simp [handle_todos_post, JValue.truthy, jsonContains, jsonIndex, hfind, hany,
            dbInsert, hbind, ht, hnn]

/-- Witness for C2 (amended): creating `{"text": "Buy milk"}` on the fresh
database returns 201 echoing "Buy milk" and stores exactly one row with
id 1. -/
theorem create_with_text_ok_witness :
    (init_db emptyDB).table = some []
    ∧ ([(("text", JValue.str "Buy milk"))].find? (fun p => p.1 == "text")
        = some ("text", JValue.str "Buy milk"))
    ∧ bindValue (JValue.str "Buy milk") = some (.sText "Buy milk")
    ∧ SqlValue.sText "Buy milk" ≠ SqlValue.sNull
    ∧ handle_todos_post (init_db emptyDB) (some (.obj [("text", .str "Buy milk")])) =
        (.ok { status := 201,
               body := .obj [("status", .str "success"),
                             ("message", .str "To-Do item added successfully."),
                             ("text", .str "Buy milk")] },
         { table := some [{ id := 1, text := .sText "Buy milk", created_at := 0 }],
           seq := 1, clock := 0 }) :=
  ⟨rfl, rfl, rfl, by decide,
   create_with_text_ok (init_db emptyDB) [] [("text", .str "Buy milk")]
     (JValue.str "Buy milk") (.sText "Buy milk") rfl rfl rfl (by decide)⟩

/-- C9: When the payload is a well-formed JSON object whose "text" key maps
to JSON null, the `if not data or 'text' not in data` check passes (the
object is truthy and the key is present), the insert violates
`text TEXT NOT NULL` and raises `IntegrityError` — an unhandled exception
that Flask surfaces as a generic 500 server failure, not the fixed 400
validation response — and the database is unchanged: no row is added. -/
theorem null_text_unhandled_error (db : DB) (rows : List Row) (fs : List (String × JValue))
    (ht : db.table = some rows)
    (hfind : fs.find? (fun p => p.1 == "text") = some ("text", JValue.null)) :
    handle_todos_post db (some (.obj fs)) = (.error .integrityError, db) := by
  cases fs with
  | nil => simp at hfind
  | cons p ps =>
      have hmem : (("text", JValue.null) : String × JValue) ∈ p :: ps :=
        List.mem_of_find?_eq_some hfind
      have hany : ((p :: ps).any (fun q => q.1 == "text")) = true :=
        List.any_eq_true.2 ⟨("text", JValue.null), hmem, by simp⟩
      simp [handle_todos_post, JValue.truthy, jsonContains, jsonIndex, hfind, hany,
            dbInsert, bindValue, ht]

/-- Witness for C9: `{"text": null}` on the freshly initialized database
raises `IntegrityError` and leaves the database unchanged. -/
theorem null_text_unhandled_error_witness :
    (init_db emptyDB).table = some []
    ∧ ([(("text", JValue.null))].find? (fun p => p.1 == "text")
        = some ("text", JValue.null))
    ∧ handle_todos_post (init_db emptyDB) (some (.obj [("text", JValue.null)]))
        = (.error .integrityError, init_db emptyDB) :=
  ⟨rfl, rfl,
   null_text_unhandled_error (init_db emptyDB) [] [("text", JValue.null)] rfl rfl⟩

theorem dbInsert_wf (db : DB) (v : JValue) (h : dbWF db) : dbWF (dbInsert db v).2 := by
  obtain ⟨rows, ht, hchain, hle⟩ := h
  cases hb : bindValue v with
  | none => exact ⟨rows, by simp [dbInsert, hb, ht], hchain, by simpa [dbInsert, hb] using hle⟩
  | some sv =>
      by_cases hs : sv = SqlValue.sNull
      · exact ⟨rows, by simp [dbInsert, hb, ht, hs], hchain, by simpa [dbInsert, hb, ht, hs] using hle⟩
      · refine ⟨rows ++ [{ id := db.seq + 1, text := sv, created_at := db.clock }],
          by simp [dbInsert, hb, ht, hs], ?_, ?_⟩
        · rw [List.chain'_append]
          refine ⟨hchain, List.chain'_singleton _, ?_⟩
          intro x hx y hy
          simp at hy
          subst hy
          have hxm : x ∈ rows := by
            obtain ⟨hne, hxe⟩ := List.mem_getLast?_eq_getLast hx
            exact hxe ▸ List.getLast_mem hne
          have := hle x hxm
          simp
          omega
        · intro x hx
          simp [dbInsert, hb, ht, hs]
          rcases List.mem_append.mp hx with hxr | hxn
          · have := hle x hxr; omega
          · simp at hxn; subst hxn; simp

theorem handle_todos_get_db (db : DB) : (handle_todos_get db).2 = db := by
  cases h : db.table <;> simp [handle_todos_get, h]

theorem post_preserves_wf (db : DB) (d : Option JValue) (h : dbWF db) :
    dbWF (handle_todos_post db d).2 := by
  unfold handle_todos_post
  cases d with
  | none => exact h
  | some v =>
      by_cases htr : v.truthy = false
      · simp [htr]; exact h
      · simp [htr]
        cases hc : jsonContains v "text" with
        | error e => simp; exact h
        | ok b =>
            cases b with
            | false => simp; exact h
            | true =>
                simp
                cases hi : jsonIndex v "text" with
                | error e => simp; exact h
                | ok tv =>
                    simp
                    have hw := dbInsert_wf db tv h
                    rcases hd : dbInsert db tv with ⟨res, db2⟩
                    rw [hd] at hw
                    cases res with
                    | error e => exact hw
                    | ok u => exact hw

theorem stepDb_preserves_wf (db : DB) (r : Request) (h : dbWF db) : dbWF (stepDb db r) := by
  cases r with
  | statusCheck => exact h
  | listTodos =>
      have := handle_todos_get_db db
      simpa [stepDb, processRequest, dispatch, this] using h
  | createTodo d =>
      simpa [stepDb, processRequest, dispatch] using post_preserves_wf db d h

theorem reachable_wf (db : DB) (h : Reachable db) : dbWF db := by
  induction h with
  | start => exact ⟨[], rfl, List.chain'_nil, by simp⟩
  | step r _ ih => exact stepDb_preserves_wf _ r ih
  | tick _ ih =>
      obtain ⟨rows, ht, hchain, hle⟩ := ih
      exact ⟨rows, ht, hchain, hle⟩

/-- C6: In every reachable database state the stored ids are strictly
increasing in insertion order (hence pairwise distinct), every id is at
most the AUTOINCREMENT sequence value, and a successful Create appends
exactly one row whose id is `seq + 1` — strictly greater than every id
ever assigned (the sequence never decreases and is never reused, and no
operation deletes rows). -/
theorem ids_unique_monotone (db : DB) (h : Reachable db) :
    ∃ rows, db.table = some rows
      ∧ List.Chain' (fun a b : Row => a.id < b.id) rows
      ∧ (rows.map Row.id).Nodup
      ∧ (∀ x ∈ rows, x.id ≤ db.seq)
      ∧ (∀ v sv, bindValue v = some sv → sv ≠ SqlValue.sNull →
          (dbInsert db v).2.table
            = some (rows ++ [{ id := db.seq + 1, text := sv, created_at := db.clock }])
          ∧ ∀ x ∈ rows, x.id < db.seq + 1) := by
  obtain ⟨rows, ht, hchain, hle⟩ := reachable_wf db h
  refine ⟨rows, ht, hchain, ?_, hle, ?_⟩
  · have hm : List.Chain' (· < ·) (rows.map Row.id) := (List.chain'_map Row.id).2 hchain
    have hp : (rows.map Row.id).Pairwise (· < ·) := List.chain'_iff_pairwise.mp hm
    exact hp.imp (fun hab => Nat.ne_of_lt hab)
  · intro v sv hb hnn
    refine ⟨by simp [dbInsert, hb, ht, hnn], ?_⟩
    intro x hx
    have := hle x hx
    omega

/-- Witness for C6: the reachable state after one successful Create (text
"a") satisfies all the id invariants. -/
theorem ids_unique_monotone_witness :
    ∃ rows, sampleDB.table = some rows
      ∧ List.Chain' (fun a b : Row => a.id < b.id) rows
      ∧ (rows.map Row.id).Nodup
      ∧ (∀ x ∈ rows, x.id ≤ sampleDB.seq)
      ∧ (∀ v sv, bindValue v = some sv → sv ≠ SqlValue.sNull →
          (dbInsert sampleDB v).2.table
            = some (rows ++ [{ id := sampleDB.seq + 1, text := sv, created_at := sampleDB.clock }])
          ∧ ∀ x ∈ rows, x.id < sampleDB.seq + 1) :=
  ids_unique_monotone sampleDB
    (Reachable.step (Request.createTodo (some (.obj [("text", JValue.str "a")]))) Reachable.start)

theorem post_str_step (rows : List Row) (s c : Nat) (t : String) :
    handle_todos_post { table := some rows, seq := s, clock := c }
        (some (.obj [("text", JValue.str t)]))
      = (.ok { status := 201,
               body := .obj [("status", .str "success"),
                             ("message", .str "To-Do item added successfully."),
                             ("text", .str t)] },
         { table := some (rows ++ [{ id := s + 1, text := .sText t, created_at := c }]),
           seq := s + 1, clock := c }) := rfl

theorem createTextsSpaced_run (ts : List String) : ∀ (rows : List Row) (s c : Nat),
    createTextsSpaced { table := some rows, seq := s, clock := c } ts
      = { table := some (rows ++ rowsFrom s c ts),
          seq := s + ts.length, clock := c + ts.length } := by
  induction ts with
  | nil => intro rows s c; simp [createTextsSpaced, rowsFrom]
  | cons t ts ih =>
      intro rows s c
      rw [createTextsSpaced, post_str_step]
      simp only [tickClock]
      rw [ih]
      simp [rowsFrom, List.append_assoc, DB.mk.injEq]
      omega

theorem createTextsSpacedResponses_run (ts : List String) : ∀ (rows : List Row) (s c : Nat),
    createTextsSpacedResponses { table := some rows, seq := s, clock := c } ts
      = ts.map (fun t => .ok { status := 201,
                               body := .obj [("status", .str "success"),
                                             ("message", .str "To-Do item added successfully."),
                                             ("text", .str t)] }) := by
  induction ts with
  | nil => intro rows s c; rfl
  | cons t ts ih =>
      intro rows s c
      rw [createTextsSpacedResponses, post_str_step]
      simp only [tickClock]
      rw [ih]
      simp [post_str_step]

theorem insertDesc_last (r : Row) : ∀ l : List Row,
    (∀ x ∈ l, ¬ (x.created_at ≤ r.created_at)) → insertDesc r l = l ++ [r] := by
  intro l
  induction l with
  | nil => intro _; rfl
  | cons x xs ih =>
      intro h
      rw [insertDesc, if_neg (h x (by simp)), ih (fun y hy => h y (by simp [hy]))]
      simp

theorem rowsFrom_created_ge (ts : List String) : ∀ (s c : Nat) (x : Row),
    x ∈ rowsFrom s c ts → c ≤ x.created_at := by
  induction ts with
  | nil => intro s c x hx; simp [rowsFrom] at hx
  | cons t ts ih =>
      intro s c x hx
      rw [rowsFrom] at hx
      rcases List.mem_cons.mp hx with h | h
      · subst h; simp
      · exact Nat.le_of_succ_le (ih (s + 1) (c + 1) x h)

theorem sort_rowsFrom (ts : List String) : ∀ (s c : Nat),
    sortByCreatedDesc (rowsFrom s c ts) = (rowsFrom s c ts).reverse := by
  induction ts with
  | nil => intro s c; rfl
  | cons t ts ih =>
      intro s c
      rw [rowsFrom, sortByCreatedDesc, ih]
      rw [insertDesc_last]
      · simp
      · intro x hx
        have := rowsFrom_created_ge ts (s + 1) (c + 1) x (List.mem_reverse.mp hx)
        simp
        omega

theorem rowsFrom_texts (ts : List String) : ∀ (s c : Nat),
    (rowsFrom s c ts).map Row.text = ts.map SqlValue.sText := by
  induction ts with
  | nil => intro s c; rfl
  | cons t ts ih => intro s c; simp [rowsFrom, ih]

theorem rowsFrom_length (ts : List String) : ∀ (s c : Nat),
    (rowsFrom s c ts).length = ts.length := by
  induction ts with
  | nil => intro s c; rfl
  | cons t ts ih => intro s c; simp [rowsFrom, ih]

/-- Counterexample for C1 as stated: two successful Creates ("a" then "b")
arriving back to back within one wall-clock second both return 201, but
both rows are stamped `created_at = 0` (`CURRENT_TIMESTAMP` has second
resolution), `ORDER BY created_at DESC` carries no ordering guarantee for
the tied rows — SQLite returns them in scan (insertion) order — and the
List yields the texts "a","b": not the reverse insertion order "b","a" the
claim requires for every sequence of successful Creates. -/
theorem create_list_reverse_order_counterexample :
    createTextsResponses (init_db emptyDB) ["a", "b"]
      = [.ok { status := 201,
               body := .obj [("status", .str "success"),
                             ("message", .str "To-Do item added successfully."),
                             ("text", .str "a")] },
         .ok { status := 201,
               body := .obj [("status", .str "success"),
                             ("message", .str "To-Do item added successfully."),
                             ("text", .str "b")] }]
    ∧ (handle_todos_get (createTexts (init_db emptyDB) ["a", "b"])).1
      = .ok { status := 200,
              body := .arr
                [rowToJson { id := 1, text := .sText "a", created_at := 0 },
                 rowToJson { id := 2, text := .sText "b", created_at := 0 }] }
    ∧ ([{ id := 1, text := .sText "a", created_at := 0 },
        { id := 2, text := .sText "b", created_at := 0 }] : List Row).map Row.text
        ≠ ((["a", "b"].reverse).map SqlValue.sText) :=
  ⟨rfl, rfl, by decide⟩

/-- C1 (amended): Starting from the freshly initialized (empty) store,
running one Create per text t₁…tₙ — provided the wall clock advances
between consecutive calls, so the rows receive strictly increasing
`created_at` timestamps (the calls fall in distinct seconds) — makes every
call succeed with a 201 response echoing its text, and a subsequent List
returns status 200 with exactly N items whose text values appear in
reverse insertion order tₙ…t₁.  Same-second Creates tie on `created_at`
and get no ordering guarantee from `ORDER BY created_at DESC`. -/
theorem create_list_reverse_order (ts : List String) :
    (handle_todos_get (createTextsSpaced (init_db emptyDB) ts)).1
      = .ok { status := 200, body := .arr (((rowsFrom 0 0 ts).reverse).map rowToJson) }
    ∧ ((rowsFrom 0 0 ts).reverse).map Row.text = (ts.reverse).map SqlValue.sText
    ∧ ((rowsFrom 0 0 ts).reverse).length = ts.length
    ∧ createTextsSpacedResponses (init_db emptyDB) ts
        = ts.map (fun t => .ok { status := 201,
                                 body := .obj [("status", .str "success"),
                                               ("message", .str "To-Do item added successfully."),
                                               ("text", .str t)] }) := by
  have h0 : init_db emptyDB = { table := some [], seq := 0, clock := 0 } := rfl
  refine ⟨?_, ?_, ?_, ?_⟩
  · rw [h0, createTextsSpaced_run]
    simp [handle_todos_get, sort_rowsFrom]
  · simp [List.map_reverse, rowsFrom_texts]
  · simp [rowsFrom_length]
  · rw [h0, createTextsSpacedResponses_run]

end TodoApp
